import Mathlib

/-
Verification of the AMQP connection core (amqp/connection.py).

The Python source is shallowly embedded below: times and heartbeat
intervals (Python floats that the claims only exercise at integral
values) are modelled as `Nat`; the channel-id pool
(`array('H', range(channel_max, 0, -1))`) as a `List Nat` in the same
order, where `array.pop()` takes the last element and `array.remove(x)`
deletes the first occurrence of `x`; Python exceptions as explicit
`Except` results or returned error values.
-/

namespace Amqp

/-- The error classes of amqp/exceptions.py that connection.py raises.
`resourceError` corresponds to `ResourceError` (a recoverable channel
error per the spec's error taxonomy), `recoverableConnectionError` to
`RecoverableConnectionError`, `connectionForced` to `ConnectionForced`. -/
inductive AmqpError where
  | resourceError (msg : String)
  | connectionError (msg : String)
  | recoverableConnectionError (msg : String)
  | connectionForced (msg : String)
deriving DecidableEq

/-- The channel-id pool as built in `Connection.__init__`:
`array('H', range(self.channel_max, 0, -1))`, i.e. the list
`[channel_max, channel_max - 1, ..., 1]`. -/
def initAvailChannelIds (channel_max : Nat) : List Nat :=
  ((List.range channel_max).map (fun i => i + 1)).reverse

/-- The fields of `Connection` that the Tune handler reads or writes,
together with the channel-id pool. -/
structure TuneState where
  channel_max : Nat
  frame_max : Nat
  client_heartbeat : Nat
  server_heartbeat : Nat
  heartbeat : Nat
  avail_channel_ids : List Nat
deriving DecidableEq

/-- `Connection.__init__`, restricted to the fields of `TuneState`:
`channel_max = channel_max or 65535`, `frame_max = frame_max or 131072`
(0 models Python `None`/falsy here), `client_heartbeat` is the
constructor's `heartbeat` argument, the class attributes
`server_heartbeat`/`heartbeat` start at `None` (modelled 0), and
`_avail_channel_ids = array('H', range(self.channel_max, 0, -1))`. -/
def connectionInit (channel_max frame_max heartbeat : Nat) : TuneState :=
  let cm := if channel_max = 0 then 65535 else channel_max
  let fm := if frame_max = 0 then 131072 else frame_max
  { channel_max := cm
    frame_max := fm
    client_heartbeat := heartbeat
    server_heartbeat := 0
    heartbeat := 0
    avail_channel_ids := initAvailChannelIds cm }

/-- `Connection._on_tune(channel_max, frame_max, server_heartbeat)`:
`client_heartbeat = self.client_heartbeat or 0`;
`self.channel_max = channel_max or self.channel_max`;
`self.frame_max = frame_max or self.frame_max`;
`self.server_heartbeat = server_heartbeat or 0`;
heartbeat is `max` of the two when either is 0, else `min`, and forced
to 0 when `client_heartbeat` is falsy. The handler touches no other
field of the state (in particular not `_avail_channel_ids`). -/
def on_tune (s : TuneState) (channel_max frame_max server_heartbeat : Nat) :
    TuneState :=
  let client_heartbeat := s.client_heartbeat
  let new_channel_max := if channel_max = 0 then s.channel_max else channel_max
  let new_frame_max := if frame_max = 0 then s.frame_max else frame_max
  let new_server_heartbeat := server_heartbeat
  let hb :=
    if new_server_heartbeat = 0 ∨ client_heartbeat = 0 then
      max new_server_heartbeat client_heartbeat
    else
      min new_server_heartbeat client_heartbeat
  let hb2 := if client_heartbeat = 0 then 0 else hb
  { s with
    channel_max := new_channel_max
    frame_max := new_frame_max
    server_heartbeat := new_server_heartbeat
    heartbeat := hb2 }

/-- `array.remove(x)`: delete the first occurrence of `x`, or signal
`ValueError` (`none`) when `x` is absent. -/
def removeFirst : List Nat → Nat → Option (List Nat)
  | [], _ => none
  | x :: xs, y =>
    if x = y then some xs else (removeFirst xs y).map (fun t => x :: t)

/-- `Connection._claim_channel_id(channel_id)`: try
`self._avail_channel_ids.remove(channel_id)`; on `ValueError` raise
`ConnectionError('Channel %r already open' % channel_id)`. Returns the
updated pool on success. -/
def claim_channel_id (pool : List Nat) (channel_id : Nat) :
    Except AmqpError (List Nat) :=
  match removeFirst pool channel_id with
  | some p => .ok p
  | none =>
    .error (.connectionError
      ("Channel " ++ toString channel_id ++ " already open"))

/-- `Connection._get_free_channel_id()`: try
`self._avail_channel_ids.pop()` (Python `array.pop()` removes and
returns the LAST element); on `IndexError` raise
`ResourceError('No free channel ids, current={0}, channel_max={1}')`.
Returns the popped id together with the updated pool. -/
def get_free_channel_id (pool : List Nat) (num_channels channel_max : Nat) :
    Except AmqpError (Nat × List Nat) :=
  match pool.getLast? with
  | some cid => .ok (cid, pool.dropLast)
  | none =>
    .error (.resourceError
      ("No free channel ids, current=" ++ toString num_channels ++
        ", channel_max=" ++ toString channel_max))

/-- `Connection.negotiate_capabilities` default
(`NEGOTIATE_CAPABILITIES` in connection.py). -/
def NEGOTIATE_CAPABILITIES : List (String × Bool) :=
  [("consumer_cancel_notify", true),
   ("connection.blocked", true),
   ("authentication_failure_close", true)]

/-- The capability negotiation of `Connection._on_start` under the
default `client_properties` (built from `LIBRARY_PROPERTIES`, which has
no `'capabilities'` key, so `setdefault('capabilities', {})` yields an
empty map): `cap` is updated with the entries of
`negotiate_capabilities` whose key the server's capability map holds
with a truthy value (`scap.get(wanted_cap)`), and when `cap` ends up
empty the `'capabilities'` key is popped from `client_properties`,
modelled by returning `none`. `scap w` is the truthiness of
`server_properties['capabilities'].get(w)`. -/
def on_start_capabilities (scap : String → Bool) :
    Option (List (String × Bool)) :=
  let cap := NEGOTIATE_CAPABILITIES.filter (fun p => scap p.1)
  if cap = [] then none else some cap

/-- Methods connection.py sends on the wire in the close handshake. -/
inductive OutMethod where
  | closeOk
deriving DecidableEq

/-- The payload every connection error raised by `_on_close` carries. -/
structure ConnectionExceptionInfo where
  reply_code : Nat
  reply_text : String
  class_id : Nat
  method_id : Nat
deriving DecidableEq

/-- Modelled from the spec: `error_for_code` is defined in
amqp/exceptions.py, which is not under src/; per the spec it maps a
reply code to a connection-error value carrying `reply_code`,
`reply_text` and the offending `(class_id, method_id)`. -/
def error_for_code (reply_code : Nat) (reply_text : String)
    (class_id method_id : Nat) : ConnectionExceptionInfo :=
  { reply_code := reply_code
    reply_text := reply_text
    class_id := class_id
    method_id := method_id }

/-- `Connection._on_close(reply_code, reply_text, class_id, method_id)`:
first `await self._x_close_ok()` (which sends `Connection.CloseOk`),
then `raise error_for_code(reply_code, reply_text, (class_id,
method_id), ConnectionError)`. The result pairs the methods sent (in
order, all sent before the raise) with the raised error. -/
def on_close (reply_code : Nat) (reply_text : String)
    (class_id method_id : Nat) : List OutMethod × ConnectionExceptionInfo :=
  ([OutMethod.closeOk], error_for_code reply_code reply_text class_id method_id)

/-- The fields of `Connection` that `heartbeat_tick` reads or writes. -/
structure HeartbeatState where
  heartbeat : Nat
  bytes_sent : Nat
  bytes_recv : Nat
  prev_sent : Option Nat
  prev_recv : Option Nat
  last_heartbeat_sent : Nat
  last_heartbeat_received : Nat
deriving DecidableEq

/-- Whether `heartbeat_tick` returned normally or raised
`ConnectionForced`. -/
inductive TickOutcome where
  | ok
  | connectionForcedRaised (msg : String)
deriving DecidableEq

/-- Result of one `heartbeat_tick` call: the updated connection state,
whether a heartbeat frame was sent, and the outcome. -/
structure TickResult where
  state : HeartbeatState
  sent_heartbeat : Bool
  outcome : TickOutcome
deriving DecidableEq

/-- `Connection.heartbeat_tick(rate=2)` (`rate` is ignored by the
source). `monotonic()` is modelled as the single value `now` for every
call within one tick. Steps, in source order: return immediately when
`self.heartbeat` is falsy; refresh `last_heartbeat_sent` /
`last_heartbeat_received` when the byte counters moved or the previous
samples are `None`; store the new previous samples; send a heartbeat
frame and refresh `last_heartbeat_sent` when
`now > last_heartbeat_sent + heartbeat`; raise
`ConnectionForced('Too many heartbeats missed')` when
`last_heartbeat_received` is truthy and
`last_heartbeat_received + 2 * heartbeat < now`. -/
def heartbeat_tick (s : HeartbeatState) (now : Nat) : TickResult :=
  if s.heartbeat = 0 then
    { state := s, sent_heartbeat := false, outcome := .ok }
  else
    let sent_now := s.bytes_sent
    let recv_now := s.bytes_recv
    let lhs :=
      match s.prev_sent with
      | none => now
      | some p => if p ≠ sent_now then now else s.last_heartbeat_sent
    let lhr :=
      match s.prev_recv with
      | none => now
      | some p => if p ≠ recv_now then now else s.last_heartbeat_received
    let step := if lhs + s.heartbeat < now then (true, now) else (false, lhs)
    let s2 : HeartbeatState :=
      { s with
        prev_sent := some sent_now
        prev_recv := some recv_now
        last_heartbeat_sent := step.2
        last_heartbeat_received := lhr }
    if lhr ≠ 0 ∧ lhr + 2 * s.heartbeat < now then
      { state := s2
        sent_heartbeat := step.1
        outcome := .connectionForcedRaised "Too many heartbeats missed" }
    else
      { state := s2, sent_heartbeat := step.1, outcome := .ok }

/-- The transport object as `Connection.connected` sees it. -/
structure TransportState where
  connected : Bool
deriving DecidableEq

/-- Observable actions of `Connection.connect`. -/
inductive ConnectAction where
  | invoke_callback
  | setup_transport
  | handshake
deriving DecidableEq

/-- The fields of `Connection` that `connect` reads or writes, plus the
negotiated parameters the idempotence claim says are left unchanged. -/
structure ConnectState where
  transport : Option TransportState
  handshake_complete : Bool
  channel_max : Nat
  frame_max : Nat
  heartbeat : Nat
deriving DecidableEq

/-- `Connection.connected`: `self._transport and self._transport.connected`
(falsy when `_transport` is `None`). -/
def connectedProp (s : ConnectState) : Bool :=
  match s.transport with
  | none => false
  | some t => t.connected

/-- `Connection.connect(callback=None)`: when `self.connected` is truthy
only the optional callback is awaited; otherwise the transport is
created and connected, the inbound frame handler and frame writer are
installed, and `drain_events` is looped until `_handshake_complete`
(that branch is recorded as its observable actions). -/
def connect (s : ConnectState) (has_callback : Bool) :
    ConnectState × List ConnectAction :=
  if connectedProp s then
    (s, if has_callback then [ConnectAction.invoke_callback] else [])
  else
    ({ s with transport := some { connected := true }, handshake_complete := true },
     [ConnectAction.setup_transport, ConnectAction.handshake])

/-- Observable actions of `Connection.channel`. -/
inductive ChannelAction where
  | open_handshake
deriving DecidableEq

/-- A registered Channel object, identified for this model by the
channel id it was constructed with (`None` means server-assigned). -/
structure ChannelHandle where
  channel_id : Option Nat
deriving DecidableEq

/-- `Connection.channel(channel_id=None, callback=None)`: when
`self.channels` is `None` (after `collect()`), raise
`RecoverableConnectionError('Connection already closed.')`; otherwise
return `self.channels[channel_id]` when the lookup succeeds (no further
action), and on `KeyError` construct `self.Channel(self, channel_id)`
and `await channel.open()` (the open handshake; the Channel
constructor itself lives in amqp/channel.py, outside src/). -/
def channel (channels : Option (List (Nat × ChannelHandle)))
    (channel_id : Option Nat) :
    Except AmqpError (ChannelHandle × List ChannelAction) :=
  match channels with
  | some chans =>
    match channel_id.bind (fun i => chans.lookup i) with
    | some ch => .ok (ch, [])
    | none => .ok ({ channel_id := channel_id }, [ChannelAction.open_handshake])
  | none => .error (.recoverableConnectionError "Connection already closed.")

/-- Claim C1: for every client_heartbeat value `c` fixed at construction
and every server_heartbeat `s` delivered in Tune, the heartbeat
negotiated by `_on_tune` is 0 when `c = 0`, `max c s` when `s = 0`, and
`min c s` otherwise; in particular negotiate(0,60)=0, negotiate(30,0)=30,
negotiate(30,60)=30, negotiate(60,30)=30. -/
theorem heartbeat_negotiation_correct (s : TuneState) (cm fm sh : Nat) :
    (on_tune s cm fm sh).heartbeat =
      (if s.client_heartbeat = 0 then 0
       else if sh = 0 then max s.client_heartbeat sh
       else min s.client_heartbeat sh) ∧
    (on_tune (connectionInit 1 1 0) 0 0 60).heartbeat = 0 ∧
    (on_tune (connectionInit 1 1 30) 0 0 0).heartbeat = 30 ∧
    (on_tune (connectionInit 1 1 30) 0 0 60).heartbeat = 30 ∧
    (on_tune (connectionInit 1 1 60) 0 0 30).heartbeat = 30 := by
  refine ⟨?_, by decide, by decide, by decide, by decide⟩
  by_cases hc : s.client_heartbeat = 0 <;> by_cases hs : sh = 0 <;>
    simp [on_tune, hc, hs, Nat.max_comm, Nat.min_comm]

/-- Claim C2 counterexample: construct a connection with channel_max 2
(pool `[2, 1]`) and deliver Tune with server channel_max 1. The
negotiated channel_max becomes 1, but the Tune handler does not rebuild
the pool: it still contains id 2 and differs from the range
`[1, negotiated channel_max]`. -/
theorem tune_pool_not_rebuilt_cex :
    (on_tune (connectionInit 2 1 0) 1 1 0).channel_max = 1 ∧
    (on_tune (connectionInit 2 1 0) 1 1 0).avail_channel_ids = [2, 1] ∧
    (on_tune (connectionInit 2 1 0) 1 1 0).avail_channel_ids ≠
      initAvailChannelIds (on_tune (connectionInit 2 1 0) 1 1 0).channel_max := by
  refine ⟨rfl, rfl, by decide⟩

/-- Claim C2 (amended): `_on_tune` sets channel_max to the server value
if nonzero else the client's prior value, but leaves the channel-id pool
exactly as it was before the handler ran (the pool built at
construction, minus any ids already handed out); the handler performs no
rebuild to `[1, negotiated channel_max]`. -/
theorem tune_leaves_pool_unchanged (s : TuneState) (cm fm sh : Nat) :
    (on_tune s cm fm sh).avail_channel_ids = s.avail_channel_ids ∧
    (on_tune s cm fm sh).channel_max =
      (if cm = 0 then s.channel_max else cm) := by
  constructor <;> simp [on_tune]

/-- Claim C3: for every server capability map and every entry
`(wanted_cap, enable_cap)` of the default negotiation table, the
outgoing client_properties capability map contains
`wanted_cap = enable_cap` exactly when the server's advertised
capability set also lists `wanted_cap` (with a truthy value), and the
`'capabilities'` key is absent from client_properties exactly when no
requested capability is advertised by the server. -/
theorem capability_negotiation_correct (scap : String → Bool)
    (w : String) (e : Bool) :
    ((w, e) ∈ (on_start_capabilities scap).getD [] ↔
      ((w, e) ∈ NEGOTIATE_CAPABILITIES ∧ scap w = true)) ∧
    (on_start_capabilities scap = none ↔
      ∀ p ∈ NEGOTIATE_CAPABILITIES, scap p.1 = false) := by
  constructor
  · by_cases h : NEGOTIATE_CAPABILITIES.filter (fun p => scap p.1) = []
    · rw [show on_start_capabilities scap = none by
        simp [on_start_capabilities, h]]
      simp only [Option.getD_none, List.not_mem_nil, false_iff, not_and]
      intro hw hsc
      have hmem : (w, e) ∈ NEGOTIATE_CAPABILITIES.filter (fun p => scap p.1) :=
        List.mem_filter.2 ⟨hw, by simpa using hsc⟩
      rw [h] at hmem
      exact absurd hmem (List.not_mem_nil _)
    · simp only [on_start_capabilities, h, if_neg h, Option.getD_some]
      simp [List.mem_filter]
  · simp only [on_start_capabilities]
    by_cases h : NEGOTIATE_CAPABILITIES.filter (fun p => scap p.1) = []
    · rw [if_pos h]
      rw [List.filter_eq_nil_iff] at h
      simp only [true_iff]
      intro p hp
      simpa using h p hp
    · rw [if_neg h]
      rw [List.filter_eq_nil_iff] at h
      push_neg at h
      obtain ⟨p, hp, hsc⟩ := h
      simp only [reduceCtorEq, false_iff, not_forall]
      exact ⟨p, hp, by simpa using hsc⟩

/-- `array.remove` signals `ValueError` exactly when the element is
absent. -/
theorem removeFirst_eq_none_iff (l : List Nat) (y : Nat) :
    removeFirst l y = none ↔ y ∉ l := by
  induction l with
  | nil => simp [removeFirst]
  | cons x xs ih =>
    rw [removeFirst]
    by_cases hxy : x = y
    · subst hxy
      simp
    · rw [if_neg hxy]
      constructor
      · intro h hmem
        have hnone : removeFirst xs y = none := by
          cases hrf : removeFirst xs y with
          | none => rfl
          | some t => rw [hrf] at h; exact absurd h (by simp)
        rcases List.mem_cons.mp hmem with h1 | h1
        · exact hxy h1.symm
        · exact (ih.mp hnone) h1
      · intro hmem
        have hnx : y ∉ xs := fun h1 => hmem (List.mem_cons.mpr (Or.inr h1))
        rw [ih.mpr hnx]
        rfl

/-- On success `array.remove` deletes exactly the first occurrence,
i.e. agrees with `List.erase`. -/
theorem removeFirst_eq_erase (l : List Nat) (y : Nat) (h : y ∈ l) :
    removeFirst l y = some (l.erase y) := by
  induction l with
  | nil => exact absurd h (List.not_mem_nil y)
  | cons x xs ih =>
    by_cases hxy : x = y
    · subst hxy
      simp [removeFirst, List.erase_cons_head]
    · have hmem : y ∈ xs := by
        rcases List.mem_cons.mp h with h1 | h1
        · exact absurd h1.symm hxy
        · exact h1
      rw [removeFirst, if_neg hxy, ih hmem]
      show some (x :: xs.erase y) = some ((x :: xs).erase y)
      rw [List.erase_cons, if_neg (by simp [hxy])]

/-- Claim C4: `_claim_channel_id(id)` fails with a connection error
saying the channel is already open exactly when `id` is not in the free
pool; on success `id` is removed from the pool. -/
theorem claim_channel_id_correct (pool : List Nat) (channel_id : Nat)
    (hnd : pool.Nodup) :
    (claim_channel_id pool channel_id =
        .error (.connectionError
          ("Channel " ++ toString channel_id ++ " already open")) ↔
      channel_id ∉ pool) ∧
    (channel_id ∈ pool →
      claim_channel_id pool channel_id = .ok (pool.erase channel_id) ∧
      channel_id ∉ pool.erase channel_id) := by
  constructor
  · constructor
    · intro herr hmem
      rw [claim_channel_id, removeFirst_eq_erase pool channel_id hmem] at herr
      exact absurd herr (by simp)
    · intro hmem
      rw [claim_channel_id, (removeFirst_eq_none_iff pool channel_id).mpr hmem]
  · intro hmem
    refine ⟨?_, ?_⟩
    · rw [claim_channel_id, removeFirst_eq_erase pool channel_id hmem]
    · exact (List.Nodup.mem_erase_iff hnd).mp.mt (by simp)

/-- Claim C4 witness: on the pool `[2, 1]` with id 1 free, the claim
succeeds and removes 1. -/
theorem claim_channel_id_correct_witness :
    (1 : Nat) ∈ [2, 1] ∧
    claim_channel_id [2, 1] 1 = .ok (([2, 1] : List Nat).erase 1) ∧
    (1 : Nat) ∉ (([2, 1] : List Nat).erase 1) := by
  have h := (claim_channel_id_correct [2, 1] 1 (by decide)).2 (by decide)
  exact ⟨by decide, h.1, h.2⟩

/-- Claim C5: `_get_free_channel_id()` raises
`ResourceError('No free channel ids, ...')` exactly when the pool is
empty; otherwise it returns an id taken from the pool, which is removed
from the pool, and (given the pool is disjoint from the set of open
channels) never an id currently held by an open channel. -/
theorem get_free_channel_id_correct (pool open_ids : List Nat)
    (num_channels channel_max : Nat) (hnd : pool.Nodup)
    (hdisj : ∀ i ∈ pool, i ∉ open_ids) :
    (get_free_channel_id pool num_channels channel_max =
        .error (.resourceError
          ("No free channel ids, current=" ++ toString num_channels ++
            ", channel_max=" ++ toString channel_max)) ↔ pool = []) ∧
    (∀ cid rest,
      get_free_channel_id pool num_channels channel_max = .ok (cid, rest) →
      cid ∈ pool ∧ rest ++ [cid] = pool ∧ cid ∉ rest ∧ cid ∉ open_ids) := by
  rcases List.eq_nil_or_concat pool with rfl | ⟨l, b, hpool⟩
  · refine ⟨by simp [get_free_channel_id], ?_⟩
    intro cid rest hok
    rw [get_free_channel_id] at hok
    simp at hok
  · rw [List.concat_eq_append] at hpool
    subst hpool
    have hlast : (l ++ [b]).getLast? = some b := by
      simp [List.getLast?_concat]
    constructor
    · rw [get_free_channel_id, hlast]
      simp
    · intro cid rest hok
      rw [get_free_channel_id, hlast] at hok
      simp only [Except.ok.injEq, Prod.mk.injEq, List.dropLast_concat] at hok
      obtain ⟨hcid, hrest⟩ := hok
      rw [← hcid, ← hrest]
      have hbmem : b ∈ l ++ [b] := by simp
      have hnotl : b ∉ l := by
        rw [List.nodup_append] at hnd
        intro hmem
        exact hnd.2.2 hmem (by simp)
      exact ⟨hbmem, rfl, hnotl, hdisj b hbmem⟩

/-- Claim C5 witness: on the pool `[2, 1]` (open channel 3), allocation
returns id 1, leaving `[2]`. -/
theorem get_free_channel_id_correct_witness :
    get_free_channel_id [2, 1] 0 2 = .ok (1, [2]) ∧
    (1 : Nat) ∈ [2, 1] ∧ [2] ++ [1] = [2, 1] ∧
    (1 : Nat) ∉ [2] ∧ (1 : Nat) ∉ [3] := by
  have h := (get_free_channel_id_correct [2, 1] [3] 0 2 (by decide)
    (by decide)).2 1 [2] rfl
  exact ⟨rfl, h.1, h.2.1, h.2.2.1, h.2.2.2⟩

/-- Claim C6: for every received Close(reply_code, reply_text, class_id,
method_id), `_on_close` first sends CloseOk and then raises a connection
error carrying reply_code, reply_text and the offending
(class_id, method_id); in particular Close(320, "CONNECTION_FORCED", 0, 0)
causes an outgoing CloseOk followed by a connection error with
reply_code 320. -/
theorem on_close_sends_closeok_then_raises (reply_code : Nat)
    (reply_text : String) (class_id method_id : Nat) :
    (on_close reply_code reply_text class_id method_id).1 =
      [OutMethod.closeOk] ∧
    (on_close reply_code reply_text class_id method_id).2 =
      { reply_code := reply_code
        reply_text := reply_text
        class_id := class_id
        method_id := method_id } ∧
    (on_close 320 "CONNECTION_FORCED" 0 0).1 = [OutMethod.closeOk] ∧
    (on_close 320 "CONNECTION_FORCED" 0 0).2.reply_code = 320 := by
  exact ⟨rfl, rfl, rfl, rfl⟩

/-- Claim C7 counterexample: start from the freshly-constructed
heartbeat state (byte counters 0, previous samples `None`, timestamps 0)
with negotiated heartbeat 1. The first tick (time 3) returns normally
and marks both timestamps; the second tick (time 10) raises
`ConnectionForced('Too many heartbeats missed')` although `bytes_recv`
is still 0 — no heartbeat and no traffic was ever received, so the
raise is not limited to the case the claim states. -/
theorem heartbeat_tick_traffic_cex :
    (heartbeat_tick ⟨1, 0, 0, none, none, 0, 0⟩ 3).state =
      ⟨1, 0, 0, some 0, some 0, 3, 3⟩ ∧
    (heartbeat_tick ⟨1, 0, 0, none, none, 0, 0⟩ 3).outcome = .ok ∧
    (heartbeat_tick ⟨1, 0, 0, some 0, some 0, 3, 3⟩ 10).state.bytes_recv = 0 ∧
    (heartbeat_tick ⟨1, 0, 0, some 0, some 0, 3, 3⟩ 10).outcome =
      .connectionForcedRaised "Too many heartbeats missed" := by
  exact ⟨rfl, rfl, rfl, rfl⟩

/-- Claim C7 (amended): `heartbeat_tick` raises
`ConnectionForced('Too many heartbeats missed')` exactly when the
negotiated heartbeat is nonzero, `last_heartbeat_received` (as updated
by this tick's traffic-detection step, which also marks it
unconditionally when the previous sample is `None`) is nonzero, and
`last_heartbeat_received + 2 * heartbeat < now`; when the negotiated
heartbeat is 0, `heartbeat_tick` returns immediately without sending
anything or modifying any state. -/
theorem heartbeat_tick_raise_iff (s : HeartbeatState) (now : Nat) :
    (s.heartbeat = 0 →
      heartbeat_tick s now =
        { state := s, sent_heartbeat := false, outcome := .ok }) ∧
    ((heartbeat_tick s now).outcome =
        .connectionForcedRaised "Too many heartbeats missed" ↔
      s.heartbeat ≠ 0 ∧
      (heartbeat_tick s now).state.last_heartbeat_received ≠ 0 ∧
      (heartbeat_tick s now).state.last_heartbeat_received +
        2 * s.heartbeat < now) := by
  by_cases h0 : s.heartbeat = 0
  · refine ⟨fun _ => by rw [heartbeat_tick, if_pos h0], ?_⟩
    rw [heartbeat_tick, if_pos h0]
    simp [h0]
  · refine ⟨fun hc => absurd hc h0, ?_⟩
    simp only [heartbeat_tick, if_neg h0]
    split
    next hcond => simp_all
    next hcond =>
      simp only [reduceCtorEq, false_iff, not_and]
      intro _ hlhr hlt
      exact hcond ⟨hlhr, hlt⟩

/-- Claim C7 witness: with heartbeat 0 the tick is an identity. -/
theorem heartbeat_tick_raise_iff_witness :
    heartbeat_tick ⟨0, 5, 7, none, none, 2, 3⟩ 9 =
      { state := ⟨0, 5, 7, none, none, 2, 3⟩
        sent_heartbeat := false
        outcome := .ok } := by
  exact (heartbeat_tick_raise_iff ⟨0, 5, 7, none, none, 2, 3⟩ 9).1 rfl

/-- Claim C8: `connect()` on an already-connected instance performs no
second handshake and opens no new transport; it returns immediately with
the state (negotiated parameters included) unchanged, invoking only the
optional completion callback. -/
theorem connect_idempotent (s : ConnectState) (has_callback : Bool)
    (h : connectedProp s = true) :
    connect s has_callback =
      (s, if has_callback then [ConnectAction.invoke_callback] else []) ∧
    ConnectAction.setup_transport ∉ (connect s has_callback).2 ∧
    ConnectAction.handshake ∉ (connect s has_callback).2 := by
  rw [connect, if_pos h]
  refine ⟨rfl, ?_, ?_⟩ <;> cases has_callback <;> simp

/-- Claim C8 witness: on a connected instance with a callback, only the
callback is invoked and the state is returned unchanged. -/
theorem connect_idempotent_witness :
    connect ⟨some ⟨true⟩, true, 65535, 131072, 0⟩ true =
      (⟨some ⟨true⟩, true, 65535, 131072, 0⟩,
        [ConnectAction.invoke_callback]) ∧
    ConnectAction.setup_transport ∉
      (connect ⟨some ⟨true⟩, true, 65535, 131072, 0⟩ true).2 ∧
    ConnectAction.handshake ∉
      (connect ⟨some ⟨true⟩, true, 65535, 131072, 0⟩ true).2 := by
  have h := connect_idempotent ⟨some ⟨true⟩, true, 65535, 131072, 0⟩ true rfl
  exact ⟨h.1, h.2.1, h.2.2⟩

/-- Claim C9: `channel(id)` returns the existing Channel object when
`id` is registered in the channel map, performing no open handshake; and
it raises `RecoverableConnectionError('Connection already closed.')`
whenever the channel map is `None` (after `collect()`), for every
requested id. -/
theorem channel_registry_correct (chans : List (Nat × ChannelHandle))
    (i : Nat) (ch : ChannelHandle) (hfound : chans.lookup i = some ch) :
    channel (some chans) (some i) = .ok (ch, []) ∧
    (∀ cid, channel none cid =
      .error (.recoverableConnectionError "Connection already closed.")) := by
  refine ⟨?_, fun cid => rfl⟩
  simp [channel, hfound]

/-- Claim C9 witness: a registry holding channel 1 returns it without a
handshake, and the torn-down registry errors. -/
theorem channel_registry_correct_witness :
    channel (some [(1, ⟨some 1⟩)]) (some 1) = .ok (⟨some 1⟩, []) ∧
    channel none (some 1) =
      .error (.recoverableConnectionError "Connection already closed.") := by
  have h := channel_registry_correct [(1, ⟨some 1⟩)] 1 ⟨some 1⟩ rfl
  exact ⟨h.1, h.2 (some 1)⟩

/-- Claim C10: on the very first `heartbeat_tick` after construction
(`prev_sent` and `prev_recv` both `None`) with a nonzero heartbeat, both
`last_heartbeat_sent` and `last_heartbeat_received` are set to the
current monotonic time — whatever the byte counters hold — so the
"too many heartbeats missed" error is unreachable on that tick,
regardless of how much time elapsed since construction. -/
theorem first_tick_marks_timestamps (s : HeartbeatState) (now : Nat)
    (h1 : s.prev_sent = none) (h2 : s.prev_recv = none)
    (h3 : s.heartbeat ≠ 0) :
    (heartbeat_tick s now).state.last_heartbeat_sent = now ∧
    (heartbeat_tick s now).state.last_heartbeat_received = now ∧
    (heartbeat_tick s now).outcome = .ok := by
  have hsend : ¬ (now + s.heartbeat < now) := by omega
  have hraise : ¬ (now ≠ 0 ∧ now + 2 * s.heartbeat < now) := by
    intro hc
    omega
  simp [heartbeat_tick, h1, h2, h3, hsend, hraise]

/-- Claim C10 witness: the first tick at time 100 on a fresh connection
with heartbeat 2 marks both timestamps as 100 and does not raise. -/
theorem first_tick_marks_timestamps_witness :
    (heartbeat_tick ⟨2, 0, 0, none, none, 0, 0⟩ 100).state.last_heartbeat_sent
        = 100 ∧
    (heartbeat_tick
        ⟨2, 0, 0, none, none, 0, 0⟩ 100).state.last_heartbeat_received
        = 100 ∧
    (heartbeat_tick ⟨2, 0, 0, none, none, 0, 0⟩ 100).outcome = .ok := by
  exact first_tick_marks_timestamps ⟨2, 0, 0, none, none, 0, 0⟩ 100 rfl rfl
    (by decide)

end Amqp
